import Mathlib

/-!
Stream requests of ucxx: `cpp/src/request_stream.cpp`.

A shallow embedding of `ucxx::RequestStream` (constructor, `createRequestStream`,
`request`, `populateDelayedSubmission`, `callback`, `streamSendCallback`,
`streamRecvCallback`) as pure state-passing functions over a record of the
object's members, together with the legacy class `UCXXRequestStream` of
`cpp/include/ucxx/request_stream.h`.

Every call that leaves the class (the two native UCX operations, the base
class steps `Request::callback` and `Request::process`) is appended to a ghost
field `trace`, so that "which call was made, with which arguments, in which
order" is a statement about a list.  The tracing calls `ucxx_trace_req` only
log and are left out.
-/

namespace ucxx

/-! ## Types and constants of the UCX library (`ucp/api/ucp.h`, `ucs/type/status.h`) -/

/-- The C enum `ucs_status_t`: any C `int` may arrive from the native layer. -/
abbrev ucs_status_t := Int

/-- The C type `size_t`; lengths are only compared and printed here, never added. -/
abbrev size_t := Nat

/-- An address (`void*`, `ucp_ep_h`, `this`); `0` is the null pointer. -/
abbrev Ptr := Nat

/-- Value of `UCS_OK` in UCX. -/
def UCS_OK : ucs_status_t := 0

/-- Value of `UCS_INPROGRESS` in UCX. -/
def UCS_INPROGRESS : ucs_status_t := 1

/-- Value of `UCS_ERR_MESSAGE_TRUNCATED` in UCX. -/
def UCS_ERR_MESSAGE_TRUNCATED : ucs_status_t := -9

/-- Value of `UCP_OP_ATTR_FIELD_CALLBACK` in UCX, `UCS_BIT(1)`. -/
def UCP_OP_ATTR_FIELD_CALLBACK : Nat := 2

/-- Value of `UCP_OP_ATTR_FIELD_USER_DATA` in UCX, `UCS_BIT(2)`. -/
def UCP_OP_ATTR_FIELD_USER_DATA : Nat := 4

/-- Value of `UCP_OP_ATTR_FIELD_DATATYPE` in UCX, `UCS_BIT(3)`. -/
def UCP_OP_ATTR_FIELD_DATATYPE : Nat := 8

/-- Value of `UCP_OP_ATTR_FIELD_FLAGS` in UCX, `UCS_BIT(4)`. -/
def UCP_OP_ATTR_FIELD_FLAGS : Nat := 16

/-- Value of `UCP_STREAM_RECV_FLAG_WAITALL` in UCX, `UCS_BIT(0)`. -/
def UCP_STREAM_RECV_FLAG_WAITALL : Nat := 1

/-- The UCX macro `ucp_dt_make_contig(elem_size)`:
`(elem_size << UCP_DATATYPE_SHIFT) | UCP_DATATYPE_CONTIG` with shift 3 and tag 0. -/
def ucp_dt_make_contig (elem_size : Nat) : Nat := (elem_size <<< 3) ||| 0

/-- The static member functions whose addresses are stored in `param.cb`. -/
inductive CallbackFn
  | streamSendCallback
  | streamRecvCallback
  | stream_send_callback
  | stream_recv_callback
  deriving DecidableEq, Repr

/-- The union `param.cb` of `ucp_request_param_t`; `null` is its zero
initialisation by the designated initialiser. -/
inductive ucp_cb
  | null
  | send (f : CallbackFn)
  | recv_stream (f : CallbackFn)
  deriving DecidableEq, Repr

/-- The fields of `ucp_request_param_t` that `request()` touches; the others
are zero-initialised by the designated initialiser. -/
structure ucp_request_param_t where
  op_attr_mask : Nat
  flags : Nat
  cb : ucp_cb
  datatype : Nat
  user_data : Ptr
  deriving DecidableEq, Repr

/-- The C type `ucs_status_ptr_t`: either an encoded status (the null pointer is
`UCS_OK`) or the handle of an operation in flight. -/
inductive ucs_status_ptr_t
  | status (s : ucs_status_t)
  | handle (h : Ptr)
  deriving DecidableEq, Repr

/-- What one native call answers: the returned status pointer and, for a
receive, the byte count it writes through its `length` out-pointer, if any. -/
structure NativeResult where
  ret : ucs_status_ptr_t
  written : Option size_t
  deriving DecidableEq, Repr

/-! ## The data model -/

/-- The members of `DelayedSubmission` read by `request_stream.cpp`. -/
structure DelayedSubmission where
  _send : Bool
  _buffer : Ptr
  _length : size_t
  deriving DecidableEq, Repr

/-- An endpoint: `getHandle()` and the worker `getWorker(getParent())` owning it. -/
structure Endpoint where
  handle : Ptr
  parent : Nat
  deriving DecidableEq, Repr

/-- The callable `std::bind(std::mem_fn(&Request::populateDelayedSubmission), this)`. -/
inductive DelayedSubmissionCallback
  | populateDelayedSubmission (this : Ptr)
  deriving DecidableEq, Repr

/-- The submission queue of one worker. -/
structure Worker where
  delayedSubmissions : List DelayedSubmissionCallback
  deriving DecidableEq, Repr

/-- Calls that leave `RequestStream`, in the order they are made. -/
inductive Event
  | ucp_stream_send_nbx (ep : Ptr) (buffer : Ptr) (count : size_t) (param : ucp_request_param_t)
  | ucp_stream_recv_nbx (ep : Ptr) (buffer : Ptr) (count : size_t) (param : ucp_request_param_t)
  | process
  | Request_callback (request : Ptr) (status : ucs_status_t)
  deriving DecidableEq, Repr

/-- The members of a `RequestStream` object (those of its base `Request` that
this file reads or writes, and its own `_length`), its address `this`, and the
ghost `trace`. -/
structure RequestStream where
  this : Ptr
  _endpoint : Endpoint
  _delayedSubmission : DelayedSubmission
  _operationName : String
  _enablePythonFuture : Bool
  _pythonFuture : Option (Option ucs_status_t)
  _status : ucs_status_t
  _status_msg : String
  _request : ucs_status_ptr_t
  _length : size_t
  trace : List Event
  deriving DecidableEq, Repr

/-! ## Base class and worker steps that are not part of `request_stream.cpp` -/

/-- Modelled from the spec: the constructor of the base class `Request`
(`request.cpp` is not among the sources).  Spec 4.1: "constructs the object with
`status = Pending`; if `enableCompletionSignal` is true, allocates a
CompletionSignal, else leaves it absent"; the native handle is null, the message is
empty and nothing has been called yet.  The member `_length` belongs to the derived
class and is set by its own initialiser right after; it is `0` until then. -/
def Request.construct (this : Ptr) (endpoint : Endpoint) (delayedSubmission : DelayedSubmission)
    (operationName : String) (enablePythonFuture : Bool) : RequestStream :=
  { this := this
    _endpoint := endpoint
    _delayedSubmission := delayedSubmission
    _operationName := operationName
    _enablePythonFuture := enablePythonFuture
    _pythonFuture := if enablePythonFuture then some none else none
    _status := UCS_INPROGRESS
    _status_msg := ""
    _request := ucs_status_ptr_t.status UCS_OK
    _length := 0
    trace := [] }

/-- Modelled from the spec: the base completion step `Request::callback(request, status)`
(`request.cpp` is not among the sources).  Spec 4.1: "Sets `status` ... Resolves the
CompletionSignal if present"; spec 3: the signal is "resolved at most once". -/
def Request.callback (self : RequestStream) (request : Ptr) (status : ucs_status_t) :
    RequestStream :=
  { self with
    _status := status
    _pythonFuture :=
      match self._pythonFuture with
      | none => none
      | some none => some (some status)
      | some (some s) => some (some s)
    trace := self.trace ++ [Event.Request_callback request status] }

/-- Modelled from the spec: the step `Request::process()` (`request.cpp` is not among the
sources).  Spec 4.1: "If the native layer reports completion inline (status is terminal,
not in progress), immediately proceeds to the completion step ... Otherwise stores the
in-flight handle and returns".  An inline completion has no operation in flight, so the
completion step is given the null handle. -/
def Request.process (self : RequestStream) : RequestStream :=
  let self := { self with trace := self.trace ++ [Event.process] }
  match self._request with
  | ucs_status_ptr_t.handle _ => self
  | ucs_status_ptr_t.status s =>
    if s = UCS_INPROGRESS then self else Request.callback self 0 s

/-- Modelled from the spec: `Worker::registerDelayedSubmission(action)` (`worker.cpp` is not
among the sources).  Spec 4.3: the action is enqueued on the worker's SubmissionQueue, to be
run later by the progress thread. -/
def Worker.registerDelayedSubmission (self : Worker) (action : DelayedSubmissionCallback) :
    Worker :=
  { self with delayedSubmissions := self.delayedSubmissions ++ [action] }

/-! ## `std::snprintf` and `std::string` -/

/-- The characters `std::snprintf` produces for the format
`"length mismatch: %llu (got) != %llu (expected)"` and the two arguments:
each `%llu` prints its unsigned argument in decimal (`Nat.toDigits 10`, the digits
that `toString` shows for a natural number). -/
def fmt (length _length : size_t) : List Char :=
  "length mismatch: ".data ++ Nat.toDigits 10 length ++ " (got) != ".data ++
    Nat.toDigits 10 _length ++ " (expected)".data

/-- The call `std::snprintf(buffer, bufsz, ...)` for formatted output `text`: it returns
the number of characters the full output has (terminator not counted); with a buffer and
`bufsz > 0` it stores at most `bufsz - 1` characters followed by a null character and
leaves the rest of the buffer alone. -/
def snprintf (buffer : Option (List Char)) (bufsz : Nat) (text : List Char) :
    Option (List Char) × Nat :=
  match buffer with
  | none => (none, text.length)
  | some buf =>
    if bufsz = 0 then (some buf, text.length)
    else
      let out := text.take (bufsz - 1) ++ [Char.ofNat 0]
      (some (out ++ buf.drop out.length), text.length)

/-- The pointer `std::string::c_str()` read as a C string: the characters before the
first null character. -/
def c_str (s : String) : String :=
  String.mk (s.data.takeWhile (fun c => c != Char.ofNat 0))

/-! ## `RequestStream` (request_stream.cpp) -/

/-- `RequestStream::callback(void* request, ucs_status_t status, size_t length)`. -/
def RequestStream.callback (self : RequestStream) (request : Ptr) (status : ucs_status_t)
    (length : size_t) : RequestStream :=
  let status := if length = self._length then status else UCS_ERR_MESSAGE_TRUNCATED
  let self := { self with _status := status }
  let self :=
    if status = UCS_ERR_MESSAGE_TRUNCATED then
      let text := fmt length self._length
      let len := (snprintf none 0 text).2
      let _status_msg := List.replicate (len + 1) (Char.ofNat 0)
      let _status_msg :=
        ((snprintf (some _status_msg) _status_msg.length text).1).getD _status_msg
      { self with _status_msg := String.mk _status_msg }
    else self
  Request.callback self request status

/-- `RequestStream::streamSendCallback(void* request, ucs_status_t status, void* arg)`:
`arg` is the request, cast to the base `Request`, whose two-argument `callback` runs. -/
def RequestStream.streamSendCallback (request : Ptr) (status : ucs_status_t)
    (arg : RequestStream) : RequestStream :=
  Request.callback arg request status

/-- `RequestStream::streamRecvCallback(void* request, ucs_status_t status, size_t length,
void* arg)`: `arg` is the request, cast to `RequestStream`. -/
def RequestStream.streamRecvCallback (request : Ptr) (status : ucs_status_t) (length : size_t)
    (arg : RequestStream) : RequestStream :=
  RequestStream.callback arg request status length

/-- The constructor `RequestStream::RequestStream(endpoint, send, buffer, length,
enablePythonFuture)`, run for the object at address `this`; `workers` holds the
submission queue of every worker, indexed by worker. -/
def RequestStream.construct (workers : Nat → Worker) (this : Ptr) (endpoint : Endpoint)
    (send : Bool) (buffer : Ptr) (length : size_t) (enablePythonFuture : Bool) :
    RequestStream × (Nat → Worker) :=
  let self := Request.construct this endpoint
    { _send := send, _buffer := buffer, _length := length }
    (if send then "streamSend" else "streamRecv") enablePythonFuture
  let self := { self with _length := length }
  let worker := workers endpoint.parent
  let worker :=
    worker.registerDelayedSubmission (DelayedSubmissionCallback.populateDelayedSubmission this)
  (self, Function.update workers endpoint.parent worker)

/-- The factory `createRequestStream(endpoint, send, buffer, length, enablePythonFuture)`:
`new RequestStream(...)`, the new object living at address `this`. -/
def createRequestStream (workers : Nat → Worker) (this : Ptr) (endpoint : Endpoint)
    (send : Bool) (buffer : Ptr) (length : size_t) (enablePythonFuture : Bool) :
    RequestStream × (Nat → Worker) :=
  RequestStream.construct workers this endpoint send buffer length enablePythonFuture

/-- `RequestStream::request()`.  `native` is what the native call answers; a receive
is given `&_delayedSubmission->_length` as the place for the transferred byte count.
The completion callback of an operation left in flight arrives later, as a call of
`streamSendCallback` or `streamRecvCallback`. -/
def RequestStream.request (self : RequestStream) (native : NativeResult) : RequestStream :=
  let param : ucp_request_param_t :=
    { op_attr_mask :=
        UCP_OP_ATTR_FIELD_CALLBACK ||| UCP_OP_ATTR_FIELD_DATATYPE ||| UCP_OP_ATTR_FIELD_USER_DATA
      flags := 0
      cb := ucp_cb.null
      datatype := ucp_dt_make_contig 1
      user_data := self.this }
  if self._delayedSubmission._send then
    let param := { param with cb := ucp_cb.send CallbackFn.streamSendCallback }
    { self with
      _request := native.ret
      trace := self.trace ++
        [Event.ucp_stream_send_nbx self._endpoint.handle self._delayedSubmission._buffer
          self._delayedSubmission._length param] }
  else
    let param := { param with op_attr_mask := param.op_attr_mask ||| UCP_OP_ATTR_FIELD_FLAGS }
    let param := { param with flags := UCP_STREAM_RECV_FLAG_WAITALL }
    let param := { param with cb := ucp_cb.recv_stream CallbackFn.streamRecvCallback }
    { self with
      _request := native.ret
      _delayedSubmission :=
        match native.written with
        | some n => { self._delayedSubmission with _length := n }
        | none => self._delayedSubmission
      trace := self.trace ++
        [Event.ucp_stream_recv_nbx self._endpoint.handle self._delayedSubmission._buffer
          self._delayedSubmission._length param] }

/-- `RequestStream::populateDelayedSubmission()`. -/
def RequestStream.populateDelayedSubmission (self : RequestStream) (native : NativeResult) :
    RequestStream :=
  let self := self.request native
  Request.process self

/-- One operation on an existing `RequestStream`: a member function of
`request_stream.cpp` together with its arguments. -/
inductive Op
  | request (native : NativeResult)
  | populateDelayedSubmission (native : NativeResult)
  | callback (request : Ptr) (status : ucs_status_t) (length : size_t)
  | streamSendCallback (request : Ptr) (status : ucs_status_t)
  | streamRecvCallback (request : Ptr) (status : ucs_status_t) (length : size_t)
  deriving DecidableEq, Repr

/-- Run one operation on a request. -/
def Op.apply (op : Op) (self : RequestStream) : RequestStream :=
  match op with
  | Op.request native => self.request native
  | Op.populateDelayedSubmission native => self.populateDelayedSubmission native
  | Op.callback req status length => self.callback req status length
  | Op.streamSendCallback req status => RequestStream.streamSendCallback req status self
  | Op.streamRecvCallback req status length =>
    RequestStream.streamRecvCallback req status length self

/-- Run a sequence of operations on a request, first to last. -/
def run (ops : List Op) (self : RequestStream) : RequestStream :=
  ops.foldl (fun r op => op.apply r) self

/-- The event is a native send or receive call. -/
def Event.isNative : Event → Bool
  | Event.ucp_stream_send_nbx _ _ _ _ => true
  | Event.ucp_stream_recv_nbx _ _ _ _ => true
  | _ => false

/-- The event is the base completion step `Request::callback`. -/
def Event.isCompletion : Event → Bool
  | Event.Request_callback _ _ => true
  | _ => false

/-! ## The legacy class `UCXXRequestStream` (include/ucxx/request_stream.h) -/

/-- The members of a `UCXXRequestStream` object that the header reads or writes (the
`NotificationRequest` has the members of a `DelayedSubmission`), and the ghost `trace`.
This class has no expected length of its own. -/
structure UCXXRequestStream where
  this : Ptr
  _endpoint : Endpoint
  _notificationRequest : DelayedSubmission
  _operationName : String
  _status : ucs_status_t
  trace : List Event
  deriving DecidableEq, Repr

/-- Modelled from the spec: the base completion step `UCXXRequest::callback(request, status)`
(`request.h` is not among the sources).  Spec 4.1: the completion step "Sets `status`". -/
def UCXXRequest.callback (self : UCXXRequestStream) (request : Ptr) (status : ucs_status_t) :
    UCXXRequestStream :=
  { self with
    _status := status
    trace := self.trace ++ [Event.Request_callback request status] }

/-- Modelled from the spec: the step `UCXXRequest::process(status)` (`request.h` is not among
the sources), given the pointer the native call returned.  Spec 4.1: an inline completion
"immediately proceeds to the completion step", an operation in flight returns. -/
def UCXXRequest.process (self : UCXXRequestStream) (status : ucs_status_ptr_t) :
    UCXXRequestStream :=
  let self := { self with trace := self.trace ++ [Event.process] }
  match status with
  | ucs_status_ptr_t.handle _ => self
  | ucs_status_ptr_t.status s =>
    if s = UCS_INPROGRESS then self else UCXXRequest.callback self 0 s

/-- `UCXXRequestStream::stream_send_callback(request, status, arg)`. -/
def UCXXRequestStream.stream_send_callback (request : Ptr) (status : ucs_status_t)
    (arg : UCXXRequestStream) : UCXXRequestStream :=
  UCXXRequest.callback arg request status

/-- `UCXXRequestStream::stream_recv_callback(request, status, length, arg)`: the parameter
`length` is not used. -/
def UCXXRequestStream.stream_recv_callback (request : Ptr) (status : ucs_status_t)
    (_length : size_t) (arg : UCXXRequestStream) : UCXXRequestStream :=
  UCXXRequest.callback arg request status

/-- `UCXXRequestStream::stream_request()`: the state after the native call and the pointer
it returns. -/
def UCXXRequestStream.stream_request (self : UCXXRequestStream) (native : NativeResult) :
    UCXXRequestStream × ucs_status_ptr_t :=
  let param : ucp_request_param_t :=
    { op_attr_mask :=
        UCP_OP_ATTR_FIELD_CALLBACK ||| UCP_OP_ATTR_FIELD_DATATYPE ||| UCP_OP_ATTR_FIELD_USER_DATA
      flags := 0
      cb := ucp_cb.null
      datatype := ucp_dt_make_contig 1
      user_data := self.this }
  if self._notificationRequest._send then
    let param := { param with cb := ucp_cb.send CallbackFn.stream_send_callback }
    ({ self with
       trace := self.trace ++
         [Event.ucp_stream_send_nbx self._endpoint.handle self._notificationRequest._buffer
           self._notificationRequest._length param] }, native.ret)
  else
    let param := { param with op_attr_mask := param.op_attr_mask ||| UCP_OP_ATTR_FIELD_FLAGS }
    let param := { param with flags := UCP_STREAM_RECV_FLAG_WAITALL }
    let param := { param with cb := ucp_cb.recv_stream CallbackFn.stream_recv_callback }
    ({ self with
       _notificationRequest :=
         match native.written with
         | some n => { self._notificationRequest with _length := n }
         | none => self._notificationRequest
       trace := self.trace ++
         [Event.ucp_stream_recv_nbx self._endpoint.handle self._notificationRequest._buffer
           self._notificationRequest._length param] }, native.ret)

/-- `UCXXRequestStream::populateNotificationRequest()`. -/
def UCXXRequestStream.populateNotificationRequest (self : UCXXRequestStream)
    (native : NativeResult) : UCXXRequestStream :=
  let (self, status) := self.stream_request native
  UCXXRequest.process self status

/-! ## Concrete objects used to evaluate the definitions -/

/-- An endpoint with handle 7 owned by worker 0. -/
def exampleEndpoint : Endpoint := { handle := 7, parent := 0 }

/-- Workers whose queues are all empty. -/
def exampleWorkers : Nat → Worker := fun _ => { delayedSubmissions := [] }

/-- A receive request for 4 bytes into the buffer at 500, living at address 100. -/
def exampleRecv : RequestStream :=
  (createRequestStream exampleWorkers 100 exampleEndpoint false 500 4 false).1

/-- A receive request for 0 bytes. -/
def exampleRecvZero : RequestStream :=
  (createRequestStream exampleWorkers 100 exampleEndpoint false 500 0 false).1

/-- A send request for 4 bytes from the buffer at 500, living at address 200. -/
def exampleSend : RequestStream :=
  (createRequestStream exampleWorkers 200 exampleEndpoint true 500 4 true).1

/-! ## Auxiliary facts -/

theorem digitChar_ne_nul : ∀ m : Nat, m < 10 → Nat.digitChar m ≠ Char.ofNat 0 := by
  decide

theorem toDigitsCore_ne_nul (fuel : Nat) : ∀ (n : Nat) (ds : List Char),
    (∀ c ∈ ds, c ≠ Char.ofNat 0) → ∀ c ∈ Nat.toDigitsCore 10 fuel n ds, c ≠ Char.ofNat 0 := by
  induction fuel with
  | zero => intro n ds h; simpa [Nat.toDigitsCore] using h
  | succ k ih =>
    intro n ds h
    have hcons : ∀ c ∈ Nat.digitChar (n % 10) :: ds, c ≠ Char.ofNat 0 := by
      intro c hc
      rcases List.mem_cons.mp hc with rfl | hc
      · exact digitChar_ne_nul _ (Nat.mod_lt _ (by decide))
      · exact h c hc
    simp only [Nat.toDigitsCore]
    split
    · exact hcons
    · exact ih _ _ hcons

theorem toDigits_ne_nul (n : Nat) : ∀ c ∈ Nat.toDigits 10 n, c ≠ Char.ofNat 0 :=
  toDigitsCore_ne_nul _ _ _ (by simp)

theorem fmt_ne_nul (a b : Nat) : ∀ c ∈ fmt a b, c ≠ Char.ofNat 0 := by
  intro c hc
  simp only [fmt, List.mem_append] at hc
  rcases hc with (((hc | hc) | hc) | hc) | hc
  · revert c; decide
  · exact toDigits_ne_nul a c hc
  · revert c; decide
  · exact toDigits_ne_nul b c hc
  · revert c; decide

/-- The text of `fmt` is the message the interpolated string shows. -/
theorem fmt_eq_toString (a b : Nat) :
    String.mk (fmt a b) = "length mismatch: " ++ toString a ++ " (got) != " ++ toString b ++
      " (expected)" := by
  rfl

theorem takeWhile_append_nul (text : List Char) (h : ∀ c ∈ text, c ≠ Char.ofNat 0) :
    (text ++ [Char.ofNat 0]).takeWhile (fun c => c != Char.ofNat 0) = text := by
  induction text with
  | nil => simp
  | cons a t ih =>
    have ha : a ≠ Char.ofNat 0 := h a (List.mem_cons_self _ _)
    have ht : ∀ c ∈ t, c ≠ Char.ofNat 0 := fun c hc => h c (List.mem_cons_of_mem _ hc)
    have ha2 : (a != Char.ofNat 0) = true := by simpa using ha
    simp [List.takeWhile, ha2, ih ht]

/-- What the two `snprintf` calls of `callback` leave in the fresh `std::string`: the whole
text and one null character. -/
theorem snprintf_into_fresh (text : List Char) :
    ((snprintf (some (List.replicate ((snprintf none 0 text).2 + 1) (Char.ofNat 0)))
        (List.replicate ((snprintf none 0 text).2 + 1) (Char.ofNat 0)).length text).1).getD
      (List.replicate ((snprintf none 0 text).2 + 1) (Char.ofNat 0)) = text ++ [Char.ofNat 0] := by
  simp [snprintf]

/-- The three-argument `callback` is the base completion step, run on the request with the
status and the message of lines 101 to 109 already recorded, for the status of line 101. -/
theorem callback_unfold (self : RequestStream) (request : Ptr) (status : ucs_status_t)
    (length : size_t) :
    self.callback request status length =
      Request.callback
        { self with
          _status := if length = self._length then status else UCS_ERR_MESSAGE_TRUNCATED
          _status_msg :=
            if (if length = self._length then status else UCS_ERR_MESSAGE_TRUNCATED) =
                UCS_ERR_MESSAGE_TRUNCATED then
              String.mk (fmt length self._length ++ [Char.ofNat 0])
            else self._status_msg }
        request (if length = self._length then status else UCS_ERR_MESSAGE_TRUNCATED) := by
  unfold RequestStream.callback
  simp only [snprintf_into_fresh]
  by_cases h1 : length = self._length <;>
    by_cases h2 : status = UCS_ERR_MESSAGE_TRUNCATED <;> simp [h1, h2]

/-- The status recorded after `callback`. -/
theorem callback_status (self : RequestStream) (request : Ptr) (status : ucs_status_t)
    (length : size_t) :
    (self.callback request status length)._status =
      if length = self._length then status else UCS_ERR_MESSAGE_TRUNCATED := by
  rw [callback_unfold]; rfl

/-- The one call `callback` makes out of the class, and its status argument. -/
theorem callback_trace (self : RequestStream) (request : Ptr) (status : ucs_status_t)
    (length : size_t) :
    (self.callback request status length).trace =
      self.trace ++ [Event.Request_callback request
        (if length = self._length then status else UCS_ERR_MESSAGE_TRUNCATED)] := by
  rw [callback_unfold]; rfl

/-- The message after `callback`. -/
theorem callback_status_msg (self : RequestStream) (request : Ptr) (status : ucs_status_t)
    (length : size_t) :
    (self.callback request status length)._status_msg =
      if (if length = self._length then status else UCS_ERR_MESSAGE_TRUNCATED) =
          UCS_ERR_MESSAGE_TRUNCATED then
        String.mk (fmt length self._length ++ [Char.ofNat 0])
      else self._status_msg := by
  rw [callback_unfold]; rfl

theorem callback_length (self : RequestStream) (request : Ptr) (status : ucs_status_t)
    (length : size_t) : (self.callback request status length)._length = self._length := by
  rw [callback_unfold]; rfl

/-- On every length mismatch the stored message is one character longer than the formatted
text: the text followed by the null character. -/
theorem callback_status_msg_on_mismatch (self : RequestStream) (request : Ptr)
    (status : ucs_status_t) (length : size_t) (h : length ≠ self._length) :
    (self.callback request status length)._status_msg =
        String.mk (fmt length self._length ++ [Char.ofNat 0]) ∧
      (self.callback request status length)._status_msg.length =
        (String.mk (fmt length self._length)).length + 1 ∧
      c_str (self.callback request status length)._status_msg =
        String.mk (fmt length self._length) := by
  rw [callback_status_msg]
  simp only [h, if_false, if_true, c_str]
  rw [takeWhile_append_nul _ (fmt_ne_nul _ _)]
  simp [String.length]

/-! ## The claims -/

/-- C1: a receive completion delivered through `streamRecvCallback(request, s, L', arg)` with a
reported length `L'` different from the expected length `L` of the request `arg` hands the
base step `Request::callback` a request on which `UCS_ERR_MESSAGE_TRUNCATED` is recorded,
passes it `UCS_ERR_MESSAGE_TRUNCATED` as status whatever the native status `s` was, and the
request ends with that status. -/
theorem C1_streamRecvCallback_length_mismatch (arg : RequestStream) (request : Ptr)
    (s : ucs_status_t) (L L' : size_t) (hL : arg._length = L) (h : L' ≠ L) :
    RequestStream.streamRecvCallback request s L' arg =
        Request.callback
          { arg with
            _status := UCS_ERR_MESSAGE_TRUNCATED
            _status_msg := String.mk (fmt L' L ++ [Char.ofNat 0]) }
          request UCS_ERR_MESSAGE_TRUNCATED ∧
      (RequestStream.streamRecvCallback request s L' arg)._status = UCS_ERR_MESSAGE_TRUNCATED ∧
      (RequestStream.streamRecvCallback request s L' arg).trace =
        arg.trace ++ [Event.Request_callback request UCS_ERR_MESSAGE_TRUNCATED] := by
  subst hL
  unfold RequestStream.streamRecvCallback
  refine ⟨?_, ?_, ?_⟩
  · rw [callback_unfold]; simp [h]
  · rw [callback_status]; simp [h]
  · rw [callback_trace]; simp [h]

/-- Witness of C1: the 4-byte receive request completed with native status success and a
reported length of 3. -/
theorem C1_streamRecvCallback_length_mismatch_witness :
    exampleRecv._length = 4 ∧ (3 : size_t) ≠ 4 ∧
      (RequestStream.streamRecvCallback 9 UCS_OK 3 exampleRecv)._status =
        UCS_ERR_MESSAGE_TRUNCATED ∧
      (RequestStream.streamRecvCallback 9 UCS_OK 3 exampleRecv).trace =
        exampleRecv.trace ++ [Event.Request_callback 9 UCS_ERR_MESSAGE_TRUNCATED] :=
  ⟨by decide, by decide,
    (C1_streamRecvCallback_length_mismatch exampleRecv 9 UCS_OK 4 3 (by decide) (by decide)).2⟩

/-- C2: at expected length 0 and reported length 1 the stored status message is not the text
`length mismatch: 1 (got) != 0 (expected)` of 40 characters: the `std::string` has 41
characters, that text followed by a null character, because it is created with `len + 1`
characters and `snprintf` puts its terminator into the last of them.  Read as a C string
(`c_str()`) it is the text. -/
theorem C2_status_msg_has_trailing_nul :
    (exampleRecvZero.callback 9 UCS_OK 1)._status_msg =
        "length mismatch: 1 (got) != 0 (expected)\x00" ∧
      (exampleRecvZero.callback 9 UCS_OK 1)._status_msg ≠
        "length mismatch: 1 (got) != 0 (expected)" ∧
      (exampleRecvZero.callback 9 UCS_OK 1)._status_msg.length = 41 ∧
      "length mismatch: 1 (got) != 0 (expected)".length = 40 ∧
      c_str (exampleRecvZero.callback 9 UCS_OK 1)._status_msg =
        "length mismatch: 1 (got) != 0 (expected)" := by
  decide

/-- C3: `callback(request, s, L)` with the reported length equal to the expected length `L`
hands the base step a request on which `s` is recorded, passes it `s`, and the request ends
with status `s`; a request constructed with length 0 and completed with reported length 0
and native status success ends with status success, its message still empty. -/
theorem C3_callback_equal_length (self : RequestStream) (request : Ptr) (s : ucs_status_t) :
    (self.callback request s self._length)._status = s ∧
      (self.callback request s self._length).trace =
        self.trace ++ [Event.Request_callback request s] ∧
      self.callback request s self._length =
        Request.callback
          { self with
            _status := s
            _status_msg :=
              if s = UCS_ERR_MESSAGE_TRUNCATED then
                String.mk (fmt self._length self._length ++ [Char.ofNat 0])
              else self._status_msg }
          request s ∧
      (∀ (workers : Nat → Worker) (this : Ptr) (endpoint : Endpoint) (send : Bool) (buffer : Ptr)
        (enablePythonFuture : Bool),
        ((createRequestStream workers this endpoint send buffer 0 enablePythonFuture).1.callback
            request UCS_OK 0)._status = UCS_OK ∧
        ((createRequestStream workers this endpoint send buffer 0 enablePythonFuture).1.callback
            request UCS_OK 0)._status_msg = "") := by
  refine ⟨?_, ?_, ?_, ?_⟩
  · rw [callback_status]; simp
  · rw [callback_trace]; simp
  · rw [callback_unfold]; simp
  · intro workers this endpoint send buffer enablePythonFuture
    constructor
    · rw [callback_status]
      simp [createRequestStream, RequestStream.construct, Request.construct]
    · rw [callback_status_msg]
      simp [createRequestStream, RequestStream.construct, Request.construct, UCS_OK,
        UCS_ERR_MESSAGE_TRUNCATED]

/-- C4: `streamSendCallback(request, status, arg)` is the base completion step on `arg` with
the native status unchanged: no length is compared (the outcome is the same whatever the
expected length of the request) and the status message is not written.  A send request
created by `createRequestStream`, for any buffer and length, submitted and left in flight by
the native layer, whose completion then arrives with native status success, ends with
status `UCS_OK` and an empty message. -/
theorem C4_streamSendCallback (arg : RequestStream) (request : Ptr) (status : ucs_status_t) :
    RequestStream.streamSendCallback request status arg = Request.callback arg request status ∧
      (RequestStream.streamSendCallback request status arg)._status = status ∧
      (RequestStream.streamSendCallback request status arg)._status_msg = arg._status_msg ∧
      (RequestStream.streamSendCallback request status arg).trace =
        arg.trace ++ [Event.Request_callback request status] ∧
      (∀ L : size_t,
        (RequestStream.streamSendCallback request status { arg with _length := L })._status =
            status ∧
          (RequestStream.streamSendCallback request status { arg with _length := L })._status_msg =
            arg._status_msg) ∧
      (∀ (workers : Nat → Worker) (this : Ptr) (endpoint : Endpoint) (buffer : Ptr)
        (length : size_t) (enablePythonFuture : Bool) (h : Ptr) (written : Option size_t),
        (RequestStream.streamSendCallback request UCS_OK
            ((createRequestStream workers this endpoint true buffer length
              enablePythonFuture).1.populateDelayedSubmission
                { ret := ucs_status_ptr_t.handle h, written := written }))._status = UCS_OK ∧
        (RequestStream.streamSendCallback request UCS_OK
            ((createRequestStream workers this endpoint true buffer length
              enablePythonFuture).1.populateDelayedSubmission
                { ret := ucs_status_ptr_t.handle h, written := written }))._status_msg = "") := by
  refine ⟨rfl, rfl, rfl, rfl, fun L => ⟨rfl, rfl⟩, ?_⟩
  intro workers this endpoint buffer length enablePythonFuture h written
  exact ⟨rfl, rfl⟩

/-- C5: `createRequestStream` appends exactly one action, the new request's
`populateDelayedSubmission`, to the queue of the worker owning the endpoint and leaves every
other queue alone; it makes no native call (the trace of the new request is empty, its
native handle is still null and its status pending). -/
theorem C5_createRequestStream_registers_once (workers : Nat → Worker) (this : Ptr)
    (endpoint : Endpoint) (send : Bool) (buffer : Ptr) (length : size_t)
    (enablePythonFuture : Bool) :
    ((createRequestStream workers this endpoint send buffer length enablePythonFuture).2
        endpoint.parent).delayedSubmissions =
        (workers endpoint.parent).delayedSubmissions ++
          [DelayedSubmissionCallback.populateDelayedSubmission this] ∧
      (createRequestStream workers this endpoint send buffer length enablePythonFuture).2 =
        Function.update workers endpoint.parent
          { delayedSubmissions := (workers endpoint.parent).delayedSubmissions ++
              [DelayedSubmissionCallback.populateDelayedSubmission this] } ∧
      (createRequestStream workers this endpoint send buffer length enablePythonFuture).1.this =
        this ∧
      (createRequestStream workers this endpoint send buffer length enablePythonFuture).1.trace =
        [] ∧
      (createRequestStream workers this endpoint send buffer length enablePythonFuture).1._request =
        ucs_status_ptr_t.status UCS_OK ∧
      (createRequestStream workers this endpoint send buffer length enablePythonFuture).1._status =
        UCS_INPROGRESS := by
  refine ⟨?_, rfl, rfl, rfl, rfl, rfl⟩
  simp [createRequestStream, RequestStream.construct, Worker.registerDelayedSubmission]

/-- C6: `request()` makes exactly one native call, chosen by the direction of the submission.
For a send it is `ucp_stream_send_nbx` on the endpoint handle with the submission's buffer and
length, the callback `streamSendCallback`, the flags field not enabled in `op_attr_mask` and
the wait-for-all flag not set; for a receive it is `ucp_stream_recv_nbx` with the submission's
buffer and length, the callback `streamRecvCallback`, the flags field enabled and `flags`
equal to `UCP_STREAM_RECV_FLAG_WAITALL`.  In both cases `user_data` is the request itself, and
the pointer the native call returns is stored in `_request`. -/
theorem C6_request_native_call (self : RequestStream) (native : NativeResult) :
    (if self._delayedSubmission._send then
        ∃ param : ucp_request_param_t,
          (self.request native).trace = self.trace ++
            [Event.ucp_stream_send_nbx self._endpoint.handle self._delayedSubmission._buffer
              self._delayedSubmission._length param] ∧
          param.cb = ucp_cb.send CallbackFn.streamSendCallback ∧
          param.op_attr_mask &&& UCP_OP_ATTR_FIELD_FLAGS = 0 ∧
          param.flags &&& UCP_STREAM_RECV_FLAG_WAITALL = 0 ∧
          param.op_attr_mask &&& UCP_OP_ATTR_FIELD_CALLBACK = UCP_OP_ATTR_FIELD_CALLBACK ∧
          param.op_attr_mask &&& UCP_OP_ATTR_FIELD_USER_DATA = UCP_OP_ATTR_FIELD_USER_DATA ∧
          param.user_data = self.this
      else
        ∃ param : ucp_request_param_t,
          (self.request native).trace = self.trace ++
            [Event.ucp_stream_recv_nbx self._endpoint.handle self._delayedSubmission._buffer
              self._delayedSubmission._length param] ∧
          param.cb = ucp_cb.recv_stream CallbackFn.streamRecvCallback ∧
          param.op_attr_mask &&& UCP_OP_ATTR_FIELD_FLAGS = UCP_OP_ATTR_FIELD_FLAGS ∧
          param.flags = UCP_STREAM_RECV_FLAG_WAITALL ∧
          param.op_attr_mask &&& UCP_OP_ATTR_FIELD_CALLBACK = UCP_OP_ATTR_FIELD_CALLBACK ∧
          param.op_attr_mask &&& UCP_OP_ATTR_FIELD_USER_DATA = UCP_OP_ATTR_FIELD_USER_DATA ∧
          param.user_data = self.this) ∧
      (self.request native)._request = native.ret ∧
      ((self.request native).trace.drop self.trace.length).length = 1 := by
  unfold RequestStream.request
  cases hs : self._delayedSubmission._send
  · rw [if_neg (by decide), if_neg (by decide)]
    refine ⟨⟨_, rfl, rfl, ?_, ?_, ?_, ?_, rfl⟩, rfl, by simp⟩ <;> dsimp only <;> decide
  · rw [if_pos rfl, if_pos rfl]
    refine ⟨⟨_, rfl, rfl, ?_, ?_, ?_, ?_, rfl⟩, rfl, by simp⟩ <;> dsimp only <;> decide

/-! ### No operation of the class writes the expected length -/

theorem Request_callback_length (self : RequestStream) (request : Ptr) (status : ucs_status_t) :
    (Request.callback self request status)._length = self._length := rfl

theorem Request_process_length (self : RequestStream) :
    (Request.process self)._length = self._length := by
  unfold Request.process
  dsimp only
  split
  · rfl
  · split <;> rfl

theorem request_length (self : RequestStream) (native : NativeResult) :
    (self.request native)._length = self._length := by
  unfold RequestStream.request
  split <;> rfl

theorem apply_length (op : Op) (self : RequestStream) :
    (op.apply self)._length = self._length := by
  cases op with
  | request native => exact request_length self native
  | populateDelayedSubmission native =>
    show (Request.process (self.request native))._length = self._length
    rw [Request_process_length, request_length]
  | callback req status length => exact callback_length self req status length
  | streamSendCallback req status => rfl
  | streamRecvCallback req status length => exact callback_length self req status length

theorem run_length (ops : List Op) : ∀ self : RequestStream, (run ops self)._length = self._length := by
  induction ops with
  | nil => intro self; rfl
  | cons op rest ih =>
    intro self
    show (run rest (op.apply self))._length = self._length
    rw [ih, apply_length]

theorem run_append_singleton (ops : List Op) (op : Op) (self : RequestStream) :
    run (ops ++ [op]) self = op.apply (run ops self) := by
  simp [run, List.foldl_append]

/-- C7, as stated, fails: on the 4-byte receive request a first `callback(9, UCS_OK, 4)`
records the terminal status `UCS_OK`, and a later `callback(9, UCS_OK, 3)` changes the
recorded status to `UCS_ERR_MESSAGE_TRUNCATED`. -/
theorem C7_later_callback_changes_status :
    (exampleRecv.callback 9 UCS_OK 4)._status = UCS_OK ∧
      UCS_OK ≠ UCS_INPROGRESS ∧
      ((exampleRecv.callback 9 UCS_OK 4).callback 9 UCS_OK 3)._status =
        UCS_ERR_MESSAGE_TRUNCATED ∧
      ((exampleRecv.callback 9 UCS_OK 4).callback 9 UCS_OK 3)._status ≠
        (exampleRecv.callback 9 UCS_OK 4)._status := by
  decide

/-- C7, amended: `callback` has no once-only guard.  A request is pending
(`UCS_INPROGRESS`) when constructed; every call `callback(request, status, length)`, a later
one too, records the status its own arguments determine (`status` if `length` is the expected
length, `UCS_ERR_MESSAGE_TRUNCATED` otherwise); so a call leaves the recorded status unchanged
exactly when the status it determines is the one already recorded, and after any sequence of
operations ending in a `callback` the recorded status is the one that last call determines. -/
theorem C7_callback_records_own_status (self : RequestStream) (request : Ptr)
    (status : ucs_status_t) (length : size_t) :
    (self.callback request status length)._status =
        (if length = self._length then status else UCS_ERR_MESSAGE_TRUNCATED) ∧
      ((self.callback request status length)._status = self._status ↔
        (if length = self._length then status else UCS_ERR_MESSAGE_TRUNCATED) = self._status) ∧
      (∀ ops : List Op,
        (run (ops ++ [Op.callback request status length]) self)._status =
          (if length = self._length then status else UCS_ERR_MESSAGE_TRUNCATED)) ∧
      (∀ (workers : Nat → Worker) (this : Ptr) (endpoint : Endpoint) (send : Bool) (buffer : Ptr)
        (L : size_t) (enablePythonFuture : Bool),
        (createRequestStream workers this endpoint send buffer L enablePythonFuture).1._status =
          UCS_INPROGRESS) := by
  refine ⟨callback_status _ _ _ _, ?_, ?_, ?_⟩
  · rw [callback_status]
  · intro ops
    rw [run_append_singleton]
    show ((run ops self).callback request status length)._status = _
    rw [callback_status, run_length]
  · intro workers this endpoint send buffer L enablePythonFuture
    rfl

theorem request_submits (self : RequestStream) (native : NativeResult) :
    ∃ submit : Event, submit.isNative = true ∧
      (self.request native).trace = self.trace ++ [submit] ∧
      (self.request native)._request = native.ret := by
  unfold RequestStream.request
  split
  · refine ⟨_, ?_, rfl, rfl⟩; rfl
  · refine ⟨_, ?_, rfl, rfl⟩; rfl

theorem Request_process_trace (self : RequestStream) :
    (Request.process self).trace =
      self.trace ++ Event.process ::
        (match self._request with
          | ucs_status_ptr_t.handle _ => []
          | ucs_status_ptr_t.status s =>
            if s = UCS_INPROGRESS then [] else [Event.Request_callback 0 s]) := by
  unfold Request.process
  dsimp only
  split
  · simp
  · split <;> simp [Request.callback]

/-- C8: one run of `populateDelayedSubmission` first makes the native call of `request()`,
exactly one, then runs `process()`, exactly once, and whatever completion step follows
(the inline completion of `process()`) comes after both: the events it adds to the trace are
the native call, then `process`, then at most one base completion step. -/
theorem C8_populateDelayedSubmission_order (self : RequestStream) (native : NativeResult) :
    ∃ (submit : Event) (tail : List Event),
      submit.isNative = true ∧
      (self.request native).trace = self.trace ++ [submit] ∧
      (self.populateDelayedSubmission native).trace =
        self.trace ++ submit :: Event.process :: tail ∧
      tail =
        (match native.ret with
          | ucs_status_ptr_t.handle _ => []
          | ucs_status_ptr_t.status s =>
            if s = UCS_INPROGRESS then [] else [Event.Request_callback 0 s]) ∧
      (∀ e ∈ tail, e.isCompletion = true) ∧
      List.countP Event.isNative (submit :: Event.process :: tail) = 1 ∧
      List.count Event.process (submit :: Event.process :: tail) = 1 := by
  obtain ⟨submit, hn, ht, hr⟩ := request_submits self native
  have hp : (self.populateDelayedSubmission native).trace =
      (self.request native).trace ++ Event.process ::
        (match (self.request native)._request with
          | ucs_status_ptr_t.handle _ => []
          | ucs_status_ptr_t.status s =>
            if s = UCS_INPROGRESS then [] else [Event.Request_callback 0 s]) :=
    Request_process_trace (self.request native)
  rw [hr, ht] at hp
  refine ⟨submit, _, hn, ht, ?_, rfl, ?_, ?_, ?_⟩
  · rw [hp]; simp
  · intro e he
    cases hret : native.ret with
    | handle h => rw [hret] at he; simp at he
    | status s =>
      rw [hret] at he
      by_cases hs : s = UCS_INPROGRESS
      · simp [hs] at he
      · simp [hs] at he; subst he; rfl
  · have h1 : Event.isNative Event.process = false := rfl
    have h2 : ∀ s, Event.isNative (Event.Request_callback 0 s) = false := fun _ => rfl
    cases hret : native.ret with
    | handle h => simp [List.countP_cons, hn, h1]
    | status s =>
      by_cases hs : s = UCS_INPROGRESS <;> simp [hs, List.countP_cons, hn, h1, h2]
  · have hsub : submit ≠ Event.process := by
      intro h; rw [h] at hn; simp [Event.isNative] at hn
    cases hret : native.ret with
    | handle h => simp [List.count_cons, hsub]
    | status s =>
      by_cases hs : s = UCS_INPROGRESS <;> simp [hs, List.count_cons, hsub]

/-- C9: a request constructed with length `L` has expected length `L`, and no sequence of
operations of the class changes it.  A receive submission lets the native layer write the
transferred byte count `n` into the length member of the submission: after `request()` that
member is `n`, the expected length is still `L`, and a later `callback(request, status,
length)` compares `length` with `L`, not with `n`. -/
theorem C9_expected_length_unchanged (workers : Nat → Worker) (this : Ptr) (endpoint : Endpoint)
    (send : Bool) (buffer : Ptr) (L : size_t) (enablePythonFuture : Bool) :
    (createRequestStream workers this endpoint send buffer L enablePythonFuture).1._length = L ∧
      (∀ ops : List Op,
        (run ops
          (createRequestStream workers this endpoint send buffer L enablePythonFuture).1)._length =
          L) ∧
      (∀ (ret : ucs_status_ptr_t) (n : size_t),
        ((createRequestStream workers this endpoint false buffer L
            enablePythonFuture).1.request
              { ret := ret, written := some n })._delayedSubmission._length = n ∧
        ((createRequestStream workers this endpoint false buffer L
            enablePythonFuture).1.request { ret := ret, written := some n })._length = L ∧
        (∀ (ops : List Op) (request : Ptr) (status : ucs_status_t) (length : size_t),
          ((run ops ((createRequestStream workers this endpoint false buffer L
              enablePythonFuture).1.request { ret := ret, written := some n })).callback
                request status length)._status =
            if length = L then status else UCS_ERR_MESSAGE_TRUNCATED)) := by
  refine ⟨rfl, ?_, ?_⟩
  · intro ops
    rw [run_length]; rfl
  · intro ret n
    refine ⟨rfl, rfl, ?_⟩
    intro ops request status length
    rw [callback_status, run_length, request_length]
    rfl

/-- C10: `callback(request, status, length)` hands the base step the status
`status` if `length` is the expected length `L` and `UCS_ERR_MESSAGE_TRUNCATED` otherwise, and
the status message is written when that handed status is `UCS_ERR_MESSAGE_TRUNCATED` and left
as it was when it is not.  So with `length = L` the message is kept unless the native status
is itself `UCS_ERR_MESSAGE_TRUNCATED`, and in that case it is overwritten with the
length-mismatch text naming `L` both as the got and as the expected length (stored with the
terminating null character; the C string of the message is that text). -/
theorem C10_status_msg_written_iff_truncated (self : RequestStream) (request : Ptr)
    (status : ucs_status_t) (length : size_t) :
    (self.callback request status length).trace =
        self.trace ++ [Event.Request_callback request
          (if length = self._length then status else UCS_ERR_MESSAGE_TRUNCATED)] ∧
      (self.callback request status length)._status_msg =
        (if (if length = self._length then status else UCS_ERR_MESSAGE_TRUNCATED) =
            UCS_ERR_MESSAGE_TRUNCATED then
          String.mk (fmt length self._length ++ [Char.ofNat 0])
        else self._status_msg) ∧
      (self.callback request status self._length)._status_msg =
        (if status = UCS_ERR_MESSAGE_TRUNCATED then
          String.mk (fmt self._length self._length ++ [Char.ofNat 0])
        else self._status_msg) ∧
      (self.callback request UCS_ERR_MESSAGE_TRUNCATED self._length)._status_msg =
        String.mk (fmt self._length self._length ++ [Char.ofNat 0]) ∧
      c_str (self.callback request UCS_ERR_MESSAGE_TRUNCATED self._length)._status_msg =
        "length mismatch: " ++ toString self._length ++ " (got) != " ++
          toString self._length ++ " (expected)" := by
  refine ⟨callback_trace _ _ _ _, callback_status_msg _ _ _ _, ?_, ?_, ?_⟩
  · rw [callback_status_msg]; simp
  · rw [callback_status_msg]; simp
  · rw [callback_status_msg, ← fmt_eq_toString]
    simp only [if_true, c_str]
    rw [takeWhile_append_nul _ (fmt_ne_nul _ _)]

/-! ### The legacy class of the header -/

/-- In the header class the receive callback does not look at the reported length: it is the
base completion step with the native status, for every reported length. -/
theorem stream_recv_callback_ignores_length (arg : UCXXRequestStream) (request : Ptr)
    (status : ucs_status_t) (length : size_t) :
    UCXXRequestStream.stream_recv_callback request status length arg =
        UCXXRequest.callback arg request status ∧
      (UCXXRequestStream.stream_recv_callback request status length arg)._status = status :=
  ⟨rfl, rfl⟩

theorem stream_request_submits (self : UCXXRequestStream) (native : NativeResult) :
    ∃ submit : Event, submit.isNative = true ∧
      (self.stream_request native).1.trace = self.trace ++ [submit] ∧
      (self.stream_request native).2 = native.ret := by
  unfold UCXXRequestStream.stream_request
  split
  · refine ⟨_, ?_, rfl, rfl⟩; rfl
  · refine ⟨_, ?_, rfl, rfl⟩; rfl

theorem UCXXRequest_process_trace (self : UCXXRequestStream) (status : ucs_status_ptr_t) :
    ∃ tail : List Event, (UCXXRequest.process self status).trace =
      self.trace ++ Event.process :: tail := by
  unfold UCXXRequest.process
  dsimp only
  split
  · exact ⟨[], rfl⟩
  · split
    · exact ⟨[], rfl⟩
    · rename_i s _
      exact ⟨[Event.Request_callback 0 s], by simp [UCXXRequest.callback]⟩

/-- In the header class too, one run of `populateNotificationRequest` makes the native call
first and runs `process` after it. -/
theorem populateNotificationRequest_order (self : UCXXRequestStream) (native : NativeResult) :
    ∃ (submit : Event) (tail : List Event), submit.isNative = true ∧
      (self.populateNotificationRequest native).trace =
        self.trace ++ submit :: Event.process :: tail := by
  obtain ⟨submit, hn, ht, _⟩ := stream_request_submits self native
  obtain ⟨tail, hp⟩ :=
    UCXXRequest_process_trace (self.stream_request native).1 (self.stream_request native).2
  refine ⟨submit, tail, hn, ?_⟩
  have h : self.populateNotificationRequest native =
      UCXXRequest.process (self.stream_request native).1 (self.stream_request native).2 := rfl
  rw [h, hp, ht]
  simp

end ucxx
